import Mathlib

/-!
Shallow embedding of `src/statistics_and_trends.py` (the second, logging-enabled
set of definitions, lines 157-323, which shadows the earlier duplicate set and is
the one the design document specifies).

Modelling conventions:
* a cell value is a rational (`ℚ`) for numeric columns and a `String` for
  categorical (pandas `object`/`category`) columns; a missing cell (NaN) is `none`;
* float results that can be NaN are modelled as `Option` values (`none` = NaN),
  with the NaN-producing conditions (0/0 divisions in pandas/scipy) made explicit
  as guards; in the non-NaN regime Lean division on `ℚ`/`ℝ` matches float
  arithmetic up to rounding, which the embedding abstracts;
* a caught Python exception inside a `try` block is modelled with `Except`
  (error = the exception), and an *uncaught* exception escaping a function is an
  `Except.error` in that function's result type;
* the possibility of an internal pandas fault inside `preprocessing`'s `try`
  block (malformed column, unreadable cell) is external nondeterminism and is
  modelled by an explicit `fault` flag: `fault = true` plays the raised exception.
-/

namespace StatisticsAndTrends

/-- Cells of one column: numeric columns hold optional rationals, categorical
(pandas object/category dtype) columns hold optional strings; `none` is a
missing cell (NaN). -/
inductive ColData : Type where
  | num (cells : List (Option ℚ))
  | cat (cells : List (Option String))
deriving DecidableEq

/-- A named column of the data frame. -/
structure Column : Type where
  name : String
  data : ColData
deriving DecidableEq

/-- A data frame: ordered list of named columns, rows aligned by position. -/
abbrev Dataset : Type := List Column

/-- A generic cell value for row views: numeric or string payload. -/
abbrev RowCell : Type := Option (ℚ ⊕ String)

namespace ColData

/-- Number of cells stored in the column. -/
def length : ColData → Nat
  | num cells => cells.length
  | cat cells => cells.length

/-- The cell at row index `i`, as a generic row cell (out of range reads `none`). -/
def cellAt (d : ColData) (i : Nat) : RowCell :=
  match d with
  | num cells => (cells.getD i none).map Sum.inl
  | cat cells => (cells.getD i none).map Sum.inr

/-- Does row index `i` hold a present (non-missing) cell of this column? -/
def isSomeAt (d : ColData) (i : Nat) : Bool :=
  match d with
  | num cells => (cells.getD i none).isSome
  | cat cells => (cells.getD i none).isSome

/-- Keep only the cells at the given row indices, in the given order. -/
def selectIdx (idxs : List Nat) : ColData → ColData
  | num cells => num (idxs.map fun i => cells.getD i none)
  | cat cells => cat (idxs.map fun i => cells.getD i none)

/-- Is this a numeric (`np.number`) column? `df.select_dtypes` keys on this. -/
def isNum : ColData → Bool
  | num _ => true
  | cat _ => false

/-- Is this a categorical (`object`/`category`) column? -/
def isCat : ColData → Bool
  | num _ => false
  | cat _ => true

/-- No missing cell anywhere in the column. -/
def clean : ColData → Bool
  | num cells => cells.all Option.isSome
  | cat cells => cells.all Option.isSome

end ColData

/-- Number of rows of the frame (length of its first column; 0 if no columns).
pandas keeps all columns the same length; `Aligned` states that invariant. -/
def nRows (df : Dataset) : Nat :=
  match df with
  | [] => 0
  | c :: _ => c.data.length

/-- All columns have the row count of the frame (pandas row-alignment invariant). -/
def Aligned (df : Dataset) : Prop :=
  ∀ c ∈ df, c.data.length = nRows df

/-- No missing cell anywhere in the frame. -/
def NoMissing (df : Dataset) : Prop :=
  ∀ c ∈ df, c.data.clean = true

instance : DecidablePred NoMissing := fun df =>
  inferInstanceAs (Decidable (∀ c ∈ df, c.data.clean = true))

instance (df : Dataset) : Decidable (Aligned df) :=
  inferInstanceAs (Decidable (∀ c ∈ df, c.data.length = nRows df))

/-- Row `i` has no missing cell in any column (the rows `df.dropna()` keeps). -/
def completeRow (df : Dataset) (i : Nat) : Bool :=
  df.all fun c => c.data.isSomeAt i

/-- The row indices `df.dropna()` keeps, in order. -/
def keepIdx (df : Dataset) : List Nat :=
  (List.range (nRows df)).filter (completeRow df)

/-- `df.dropna()`: drop every row containing a missing value; columns (names,
dtypes, order) are untouched. -/
def dropna (df : Dataset) : Dataset :=
  df.map fun c => ⟨c.name, c.data.selectIdx (keepIdx df)⟩

/-- Row `i` of the frame as a list of generic cells, one per column. -/
def row (df : Dataset) (i : Nat) : List RowCell :=
  df.map fun c => c.data.cellAt i

/-- The row view of the frame: rows 0..nRows-1. -/
def rows (df : Dataset) : List (List RowCell) :=
  (List.range (nRows df)).map (row df)

/-- `preprocessing` (source lines 200-210): prints describe/head/corr
diagnostics (side effects, not modelled), then returns `df.dropna()`; any
internal fault inside the `try` is caught, logged, and turned into `None`.
The `fault` flag models whether such an internal fault occurs. -/
def preprocessing (fault : Bool) (df : Dataset) : Option Dataset :=
  if fault then none else some (dropna df)

/-- Names of the numeric columns, in original column order
(`df.select_dtypes(include=[np.number]).columns`). -/
def numericCols (df : Dataset) : List String :=
  (df.filter fun c => c.data.isNum).map Column.name

/-- Names of the categorical columns, in original column order
(`df.select_dtypes(include=['object', 'category']).columns`). -/
def categoryCols (df : Dataset) : List String :=
  (df.filter fun c => c.data.isCat).map Column.name

/-! ## Moment calculator (`statistical_analysis`, source lines 187-198)

`df[col].mean()` and `df[col].std()` skip NaN cells (pandas default
`skipna=True`); `ss.skew`/`ss.kurtosis` are called with `nan_policy='omit'`.
Each operation therefore works on the non-missing values of the column.
NaN results arise exactly from the 0/0 divisions: mean of 0 values, sample
std of fewer than 2 values, and skew/kurtosis of a column whose population
variance is 0 (scipy returns NaN for constant input). -/

/-- The non-missing values of a numeric column, in order (what the NaN-skipping
library calls actually operate on). -/
def presentVals (cells : List (Option ℚ)) : List ℚ :=
  cells.filterMap id

/-- Arithmetic mean of a list of values (0/0 guarded by callers). -/
def meanQ (v : List ℚ) : ℚ :=
  v.sum / v.length

/-- Population central moment of order `k`: `sum((x - mean)^k) / n`
(what scipy uses internally for skew and kurtosis, `bias=True` default). -/
def cmoment (k : Nat) (v : List ℚ) : ℚ :=
  (v.map fun x => (x - meanQ v) ^ k).sum / v.length

/-- Sample variance with divisor `n - 1` (pandas `ddof=1` default). -/
def sampleVar (v : List ℚ) : ℚ :=
  (v.map fun x => (x - meanQ v) ^ 2).sum / ((v.length : ℚ) - 1)

/-- `df[col].mean()`: NaN (`none`) iff no non-missing value exists. -/
def pdMean (cells : List (Option ℚ)) : Option ℚ :=
  let v := presentVals cells
  if v.length = 0 then none else some (meanQ v)

/-- `df[col].std()`: sample standard deviation, divisor `n - 1`; NaN (`none`)
for fewer than 2 non-missing values (0/0). -/
noncomputable def pdStd (cells : List (Option ℚ)) : Option ℝ :=
  let v := presentVals cells
  if v.length ≤ 1 then none else some (Real.sqrt (sampleVar v))

/-- `ss.skew(df[col], nan_policy='omit')`: `m3 / m2^(3/2)` over non-missing
values; NaN (`none`) when `m2 = 0` (empty or constant input). -/
noncomputable def ssSkew (cells : List (Option ℚ)) : Option ℝ :=
  let v := presentVals cells
  if cmoment 2 v = 0 then none
  else some ((cmoment 3 v : ℝ) / Real.sqrt (cmoment 2 v : ℝ) ^ 3)

/-- `ss.kurtosis(df[col], nan_policy='omit')`: Fisher excess kurtosis
`m4 / m2^2 - 3` over non-missing values; NaN (`none`) when `m2 = 0`. -/
def ssKurtosis (cells : List (Option ℚ)) : Option ℚ :=
  let v := presentVals cells
  if cmoment 2 v = 0 then none
  else some (cmoment 4 v / cmoment 2 v ^ 2 - 3)

/-- The 4-tuple `(mean, stddev, skew, excess_kurtosis)` returned by
`statistical_analysis`; `none` components are NaN floats. -/
abbrev Moments : Type := Option ℚ × Option ℝ × Option ℝ × Option ℚ

/-- `statistical_analysis(df, col)` (source lines 187-198): the whole body is in
a `try`; a missing column (`KeyError` on `df[col]`) or a non-numeric column
(`TypeError` from `mean` on object dtype) is caught and yields `None`. -/
noncomputable def statistical_analysis (df : Dataset) (col : String) : Option Moments :=
  match df.find? fun c => c.name = col with
  | none => none
  | some c =>
    match c.data with
    | ColData.num cells =>
        some (pdMean cells, pdStd cells, ssSkew cells, ssKurtosis cells)
    | ColData.cat _ => none

/-! ## Report emitter (`writing`, source lines 212-226) -/

/-- The skew classification of `writing` (source line 220): a NaN skewness
compares false on both `> 0` and `< 0` and is handled by the caller. -/
noncomputable def skew_desc (s : ℝ) : String :=
  if s > 0 then "Right-skewed" else if s < 0 then "Left-skewed" else "Symmetrical"

/-- The kurtosis classification of `writing` (source line 221). -/
def kurtosis_desc (k : ℚ) : String :=
  if k > 0 then "Leptokurtic" else if k < 0 then "Platykurtic" else "Mesokurtic"

/-- Outcome of `writing`: either the report was printed (we keep the header and
the two shape labels; numeric formatting is cosmetic), or the internal fault was
caught and logged. Either way the function returns normally. -/
inductive WriteOutcome : Type where
  | printed (header skewLabel kurtLabel : String)
  | errorLogged (msg : String)
deriving DecidableEq

/-- `writing(moments, col)` (source lines 212-226): the body is in a `try`;
when `moments` is `None`, `moments[0]` raises `TypeError`, which the `except`
catches and logs. A NaN skewness/kurtosis fails both strict comparisons, so the
final `else` branch of the conditional expressions is taken. -/
noncomputable def writing (moments : Option Moments) (col : String) : WriteOutcome :=
  match moments with
  | none =>
      WriteOutcome.errorLogged
        ("Failed to print statistical moments for column " ++ col ++ ": TypeError")
  | some m =>
      WriteOutcome.printed ("For the attribute " ++ col ++ ":")
        (match m.2.2.1 with
         | none => "Symmetrical"
         | some s => skew_desc s)
        (match m.2.2.2 with
         | none => "Mesokurtic"
         | some k => kurtosis_desc k)

/-! ## Chart renderers (source lines 157-185 and 228-287)

Each renderer either saves one image file or skips after printing/logging a
diagnostic; every internal fault is caught (`except` around the whole body), so
no renderer ever raises past its own boundary. We model the no-internal-fault
behaviour; `saved` is the written file name, `warn` the skip diagnostic, and
`used` the data column names the chart binds. -/

/-- Result of one chart renderer call. -/
structure PlotResult : Type where
  saved : Option String
  warn : Option String
  used : List String
deriving DecidableEq

/-- `plot_relational_plot` (source lines 157-165): unconditionally saves an
(empty) figure to `relational_plot.png`. -/
def plot_relational_plot (_df : Dataset) : PlotResult :=
  ⟨some "relational_plot.png", none, []⟩

/-- `plot_categorical_plot` (source lines 167-175): unconditionally saves an
(empty) figure to `categorical_plot.png`. -/
def plot_categorical_plot (_df : Dataset) : PlotResult :=
  ⟨some "categorical_plot.png", none, []⟩

/-- `plot_statistical_plot` (source lines 177-185): unconditionally saves an
(empty) figure to `statistical_plot.png`. -/
def plot_statistical_plot (_df : Dataset) : PlotResult :=
  ⟨some "statistical_plot.png", none, []⟩

/-- `scatter_plot(df, file_name)` (source lines 228-247): with fewer than 2
numeric columns it prints/logs the diagnostic and returns without saving;
otherwise it scatters the first two numeric columns and saves the file. -/
def scatter_plot (df : Dataset) (file_name : String) : PlotResult :=
  if (numericCols df).length < 2 then
    ⟨none, some ("Insufficient numerical columns in " ++ file_name ++ "."), []⟩
  else
    ⟨some ("scatter_" ++ file_name ++ ".png"), none,
      [(numericCols df).getD 0 "", (numericCols df).getD 1 ""]⟩

/-- `bar_plot(df, file_name)` (source lines 249-269): with no categorical column
it prints/logs the diagnostic and returns without saving; otherwise it counts
the first categorical column and saves the file. -/
def bar_plot (df : Dataset) (file_name : String) : PlotResult :=
  if (categoryCols df).length = 0 then
    ⟨none, some ("No categorical data in " ++ file_name ++ "."), []⟩
  else
    ⟨some ("bar_" ++ file_name ++ ".png"), none, [(categoryCols df).getD 0 ""]⟩

/-- `heatmap(df, file_name)` (source lines 271-287): with fewer than 2 numeric
columns (`numeric_data.shape[1] < 2`) it prints/logs the diagnostic and returns
without saving; otherwise it saves the correlation heatmap of all numeric
columns. -/
def heatmap (df : Dataset) (file_name : String) : PlotResult :=
  if (numericCols df).length < 2 then
    ⟨none, some ("Not enough numeric data in " ++ file_name ++ "."), []⟩
  else
    ⟨some ("heatmap_" ++ file_name ++ ".png"), none, numericCols df⟩

/-- The chart-producing phase of `main` (source lines 312-317), in call order. -/
def chartPhase (df : Dataset) (file_name : String) : List PlotResult :=
  [plot_relational_plot df, plot_statistical_plot df, plot_categorical_plot df,
   scatter_plot df file_name, heatmap df file_name, bar_plot df file_name]

/-- The image files the chart phase writes, in call order. -/
def chartFiles (df : Dataset) (file_name : String) : List String :=
  (chartPhase df file_name).filterMap PlotResult.saved

/-- The skip diagnostics the chart phase logs, in call order. -/
def chartWarns (df : Dataset) (file_name : String) : List String :=
  (chartPhase df file_name).filterMap PlotResult.warn

/-! ## Orchestrating pipeline (`main`, source lines 289-319)

We model the part of `main` after the CSV has been parsed into `df0` (the
load-phase `try/except` around `pd.read_csv` handles only `FileNotFoundError`
and `ParserError`). Crucially, `main` does NOT check whether `preprocessing`
returned `None` before calling `df.select_dtypes(...)` on the result, and that
call site is outside any `try`: a `None` result makes `main` raise an uncaught
`AttributeError`. The `Except.error` constructor models that escaping
exception. -/

/-- What a run of `main` produces after the load phase. -/
inductive MainOutcome : Type where
  | noNumeric (msg : String)
  | completed (selected : String) (charts : List PlotResult)
      (moments : Option Moments) (report : WriteOutcome)

/-- `main` after CSV parsing (source lines 304-319). `pfault` is the
`preprocessing`-internal-fault flag. An `Except.error` is an uncaught Python
exception escaping `main`. -/
noncomputable def main (pfault : Bool) (df0 : Dataset) (file_name : String) :
    Except String MainOutcome :=
  match preprocessing pfault df0 with
  | none =>
      Except.error "AttributeError: NoneType object has no attribute select_dtypes"
  | some df =>
      let num_cols := numericCols df
      if num_cols.length = 0 then
        Except.ok (MainOutcome.noNumeric ("No numeric data in " ++ file_name ++ "."))
      else
        let selected_col := num_cols.getD 0 ""
        let moments := statistical_analysis df selected_col
        Except.ok (MainOutcome.completed selected_col (chartPhase df file_name)
          moments (writing moments selected_col))

/-! ## Spec-side definitions (section 4.3 of the design document)

These follow the specification's words, for comparison with the source-side
definitions above: "mean, standard deviation (sample, i.e. divisor n−1) over
non-missing values, skewness and excess kurtosis over non-missing values". -/

/-- Spec: arithmetic mean over the non-missing values, as a real. -/
noncomputable def specNMean (v : List ℚ) : ℝ :=
  (v.map fun x : ℚ => (x : ℝ)).sum / v.length

/-- Spec: population central moment of order `k` over the non-missing values. -/
noncomputable def specCMoment (k : Nat) (v : List ℚ) : ℝ :=
  (v.map fun x : ℚ => ((x : ℝ) - specNMean v) ^ k).sum / v.length

/-- Spec: sample standard deviation, divisor `n - 1`, over non-missing values. -/
noncomputable def specSampleStd (v : List ℚ) : ℝ :=
  Real.sqrt ((v.map fun x : ℚ => ((x : ℝ) - specNMean v) ^ 2).sum / ((v.length : ℝ) - 1))

/-- Spec: skewness over non-missing values (population-moment convention,
the same convention the source uses for both shape moments). -/
noncomputable def specSkewness (v : List ℚ) : ℝ :=
  specCMoment 3 v / Real.sqrt (specCMoment 2 v) ^ 3

/-- Spec: excess kurtosis over non-missing values (same convention). -/
noncomputable def specExcessKurtosis (v : List ℚ) : ℝ :=
  specCMoment 4 v / specCMoment 2 v ^ 2 - 3

/-! ## Helper lemmas -/

lemma ratCast_sum (l : List ℚ) :
    ((l.sum : ℚ) : ℝ) = (l.map fun x : ℚ => (x : ℝ)).sum := by
  induction l with
  | nil => simp
  | cons a t ih => simp [ih]

lemma ratCast_meanQ (v : List ℚ) : ((meanQ v : ℚ) : ℝ) = specNMean v := by
  unfold meanQ specNMean
  push_cast [ratCast_sum]
  ring

lemma ratCast_map_centered (k : Nat) (v : List ℚ) :
    (v.map fun x => (x - meanQ v) ^ k).map (fun q : ℚ => (q : ℝ)) =
      v.map fun x : ℚ => ((x : ℝ) - specNMean v) ^ k := by
  rw [List.map_map]
  refine List.map_congr_left fun x _ => ?_
  simp only [Function.comp_apply]
  push_cast [ratCast_meanQ]
  rfl

lemma ratCast_cmoment (k : Nat) (v : List ℚ) :
    ((cmoment k v : ℚ) : ℝ) = specCMoment k v := by
  unfold cmoment specCMoment
  rw [Rat.cast_div, ratCast_sum, ratCast_map_centered]
  norm_cast

lemma ratCast_sampleVar (v : List ℚ) :
    ((sampleVar v : ℚ) : ℝ) =
      (v.map fun x : ℚ => ((x : ℝ) - specNMean v) ^ 2).sum / ((v.length : ℝ) - 1) := by
  unfold sampleVar
  rw [Rat.cast_div, ratCast_sum, ratCast_map_centered]
  norm_cast

lemma presentVals_append_none (cs1 cs2 : List (Option ℚ)) :
    presentVals (cs1 ++ none :: cs2) = presentVals (cs1 ++ cs2) := by
  simp [presentVals]

lemma two_le_length_of_mem_ne {α : Type} {v : List α} {x y : α}
    (hx : x ∈ v) (hy : y ∈ v) (hxy : x ≠ y) : 2 ≤ v.length := by
  match v with
  | [] => exact absurd hx (List.not_mem_nil x)
  | [a] =>
      rw [List.mem_singleton] at hx hy
      exact absurd (hx.trans hy.symm) hxy
  | a :: b :: t => simp [Nat.succ_le_succ, Nat.le_add_left]

lemma sum_sq_eq_zero {l : List ℚ} (h : (l.map fun x => x ^ 2).sum = 0) :
    ∀ x ∈ l, x = 0 := by
  induction l with
  | nil => simp
  | cons a t ih =>
      have hrest : 0 ≤ (t.map fun x => x ^ 2).sum :=
        List.sum_nonneg fun x hx => by
          obtain ⟨y, _, rfl⟩ := List.mem_map.mp hx
          positivity
      have ha : a ^ 2 = 0 := by
        have := sq_nonneg a
        simp only [List.map_cons, List.sum_cons] at h
        linarith
      intro x hx
      rcases List.mem_cons.mp hx with rfl | hx
      · exact pow_eq_zero_iff (n := 2) (by norm_num) |>.mp ha
      · refine ih ?_ x hx
        simp only [List.map_cons, List.sum_cons] at h
        linarith

lemma selectIdx_length (idxs : List Nat) (d : ColData) :
    (d.selectIdx idxs).length = idxs.length := by
  cases d <;> simp [ColData.selectIdx, ColData.length]

lemma nRows_dropna (df : Dataset) : nRows (dropna df) = (keepIdx df).length := by
  cases df with
  | nil => simp [dropna, nRows, keepIdx]
  | cons c rest => simp [dropna, nRows, selectIdx_length]

lemma cellAt_selectIdx (d : ColData) (idxs : List Nat) (j : Nat)
    (h : j < idxs.length) :
    (d.selectIdx idxs).cellAt j = d.cellAt (idxs.getD j 0) := by
  have hg : idxs.getD j 0 = idxs[j] := List.getD_eq_getElem _ _ h
  have hmap : ∀ {α : Type} (cells : List (Option α)),
      (idxs.map fun i => cells.getD i none).getD j none = cells.getD idxs[j] none := by
    intro α cells
    rw [List.getD_eq_getElem _ _ (by simpa using h), List.getElem_map]
  cases d with
  | num cells => simp only [ColData.selectIdx, ColData.cellAt, hmap, hg]
  | cat cells => simp only [ColData.selectIdx, ColData.cellAt, hmap, hg]

lemma row_dropna (df : Dataset) (j : Nat) (h : j < (keepIdx df).length) :
    row (dropna df) j = row df ((keepIdx df).getD j 0) := by
  unfold row dropna
  rw [List.map_map]
  refine List.map_congr_left fun c _ => ?_
  simpa using cellAt_selectIdx c.data (keepIdx df) j h

lemma isSome_cellAt (c : Column) (i : Nat) :
    (c.data.cellAt i).isSome = c.data.isSomeAt i := by
  cases hd : c.data <;> simp [ColData.cellAt, ColData.isSomeAt]

lemma all_isSome_row (df : Dataset) (i : Nat) :
    (row df i).all Option.isSome = completeRow df i := by
  unfold row completeRow
  induction df with
  | nil => rfl
  | cons c rest ih => simp only [List.map_cons, List.all_cons, ih, isSome_cellAt]

lemma rows_dropna (df : Dataset) :
    rows (dropna df) = (keepIdx df).map (row df) := by
  unfold rows
  rw [nRows_dropna]
  refine List.ext_getElem (by simp) fun j h1 h2 => ?_
  simp only [List.getElem_map, List.getElem_range]
  have hj : j < (keepIdx df).length := by simpa using h2
  rw [row_dropna df j hj, List.getD_eq_getElem _ _ hj]

lemma rows_dropna_filter (df : Dataset) :
    rows (dropna df) = (rows df).filter fun r => r.all Option.isSome := by
  rw [rows_dropna]
  unfold rows
  rw [List.filter_map]
  congr 1
  unfold keepIdx
  refine List.filter_congr fun i _ => ?_
  simp [Function.comp, all_isSome_row]

lemma getD_range_map {α : Type} (cells : List α) (d : α) :
    (List.range cells.length).map (fun i => cells.getD i d) = cells := by
  induction cells with
  | nil => simp
  | cons a t ih =>
      rw [List.length_cons, List.range_succ_eq_map, List.map_cons, List.map_map]
      have hcomp : ((fun i => (a :: t).getD i d) ∘ Nat.succ) = fun i => t.getD i d := by
        funext i
        simp [List.getD_cons_succ]
      rw [hcomp, ih]
      rfl

lemma isSomeAt_of_clean {d : ColData} (hc : d.clean = true) {i : Nat}
    (hi : i < d.length) : d.isSomeAt i = true := by
  cases d with
  | num cells =>
      simp only [ColData.clean, List.all_eq_true] at hc
      simp only [ColData.isSomeAt, ColData.length] at hi ⊢
      rw [List.getD_eq_getElem _ _ hi]
      exact hc _ (List.getElem_mem hi)
  | cat cells =>
      simp only [ColData.clean, List.all_eq_true] at hc
      simp only [ColData.isSomeAt, ColData.length] at hi ⊢
      rw [List.getD_eq_getElem _ _ hi]
      exact hc _ (List.getElem_mem hi)

lemma keepIdx_of_clean {df : Dataset} (ha : Aligned df) (hm : NoMissing df) :
    keepIdx df = List.range (nRows df) := by
  unfold keepIdx
  refine List.filter_eq_self.mpr fun i hi => ?_
  rw [List.mem_range] at hi
  unfold completeRow
  rw [List.all_eq_true]
  intro c hc
  exact isSomeAt_of_clean (hm c hc) (by rw [ha c hc]; exact hi)

lemma dropna_of_clean {df : Dataset} (ha : Aligned df) (hm : NoMissing df) :
    dropna df = df := by
  unfold dropna
  rw [keepIdx_of_clean ha hm]
  conv_rhs => rw [← List.map_id df]
  refine List.map_congr_left fun c hc => ?_
  have hlen : c.data.length = nRows df := ha c hc
  have hsel : c.data.selectIdx (List.range c.data.length) = c.data := by
    cases c.data with
    | num cells => exact congrArg ColData.num (getD_range_map cells none)
    | cat cells => exact congrArg ColData.cat (getD_range_map cells none)
  rw [← hlen, hsel]
  rfl

lemma aligned_dropna (df : Dataset) : Aligned (dropna df) := by
  intro c hc
  unfold dropna at hc
  obtain ⟨c0, _, rfl⟩ := List.mem_map.mp hc
  rw [nRows_dropna]
  simp [selectIdx_length]

lemma mem_keepIdx_isSomeAt {df : Dataset} {i : Nat} (hi : i ∈ keepIdx df)
    {c : Column} (hc : c ∈ df) : c.data.isSomeAt i = true := by
  unfold keepIdx at hi
  have := List.of_mem_filter hi
  unfold completeRow at this
  rw [List.all_eq_true] at this
  exact this c hc

lemma noMissing_dropna (df : Dataset) : NoMissing (dropna df) := by
  intro c hc
  unfold dropna at hc
  obtain ⟨c0, hc0, rfl⟩ := List.mem_map.mp hc
  cases hd : c0.data with
  | num cells =>
      simp only [hd, ColData.selectIdx, ColData.clean, List.all_eq_true]
      intro x hx
      obtain ⟨i, hi, rfl⟩ := List.mem_map.mp hx
      have h1 := mem_keepIdx_isSomeAt hi hc0
      rw [hd] at h1
      simpa [ColData.isSomeAt] using h1
  | cat cells =>
      simp only [hd, ColData.selectIdx, ColData.clean, List.all_eq_true]
      intro x hx
      obtain ⟨i, hi, rfl⟩ := List.mem_map.mp hx
      have h1 := mem_keepIdx_isSomeAt hi hc0
      rw [hd] at h1
      simpa [ColData.isSomeAt] using h1

lemma dropna_idem (df : Dataset) : dropna (dropna df) = dropna df :=
  dropna_of_clean (aligned_dropna df) (noMissing_dropna df)

lemma cmoment_two_ne_zero {v : List ℚ} {x y : ℚ}
    (hx : x ∈ v) (hy : y ∈ v) (hxy : x ≠ y) : cmoment 2 v ≠ 0 := by
  intro h0
  have hlen : (v.length : ℚ) ≠ 0 := by
    have : v ≠ [] := fun h => by simp [h] at hx
    exact_mod_cast Nat.cast_ne_zero.mpr (List.length_pos.mpr this).ne'
  unfold cmoment at h0
  rcases div_eq_zero_iff.mp h0 with hsum | hlen0
  · have hall : ∀ z ∈ v.map fun w => w - meanQ v, z = 0 := by
      apply sum_sq_eq_zero
      rw [List.map_map]
      exact hsum
    have hx0 : x - meanQ v = 0 := hall _ (List.mem_map.mpr ⟨x, hx, rfl⟩)
    have hy0 : y - meanQ v = 0 := hall _ (List.mem_map.mpr ⟨y, hy, rfl⟩)
    exact hxy (by linarith)
  · exact hlen hlen0

lemma head?_filter_eq_find? {α : Type} (p : α → Bool) (l : List α) :
    (l.filter p).head? = l.find? p := by
  induction l with
  | nil => rfl
  | cons a t ih =>
      cases hpa : p a
      · rw [List.filter_cons_of_neg (by simp [hpa]), List.find?_cons_of_neg _ (by simp [hpa])]
        exact ih
      · rw [List.filter_cons_of_pos (by simp [hpa]), List.find?_cons_of_pos _ hpa]
        rfl

lemma getD_pair_eq_take_two {l : List String} (h : 2 ≤ l.length) :
    [l.getD 0 "", l.getD 1 ""] = l.take 2 := by
  cases l with
  | nil => simp at h
  | cons a t =>
      cases t with
      | nil => simp at h
      | cons b t2 => rfl

lemma getD_single_eq_take_one {l : List String} (h : l ≠ []) :
    [l.getD 0 ""] = l.take 1 := by
  cases l with
  | nil => exact absurd rfl h
  | cons a t => rfl

lemma some_getD_eq_head? {l : List String} (h : l ≠ []) :
    some (l.getD 0 "") = l.head? := by
  cases l with
  | nil => exact absurd rfl h
  | cons a t => rfl

/-! ## Concrete datasets used by witnesses and counterexamples -/

/-- One numeric column, no categorical column, two rows, no missing cell. -/
def dfA : Dataset := [⟨"x", ColData.num [some 1, some 2]⟩]

/-- Two numeric and one categorical column, one row, no missing cell. -/
def dfB : Dataset :=
  [⟨"n1", ColData.num [some 1]⟩, ⟨"n2", ColData.num [some 2]⟩,
   ⟨"c1", ColData.cat [some "a"]⟩]

/-- Two aligned columns with one incomplete row. -/
def dfMiss : Dataset :=
  [⟨"x", ColData.num [some 1, none]⟩, ⟨"c", ColData.cat [some "a", some "b"]⟩]

/-- One numeric column with a single row (for the NaN edge of the moments). -/
def dfOne : Dataset := [⟨"x", ColData.num [some 5]⟩]

/-! ## Claims -/

/-- Claim C1: assuming no internal rendering fault, `scatter_plot` writes its
image file iff the dataset has at least 2 numeric columns and otherwise returns
without a file after the insufficient-numeric-columns diagnostic; `bar_plot`
writes iff at least 1 categorical column exists, else the no-categorical-data
diagnostic; `heatmap` writes iff at least 2 numeric columns exist, else the
not-enough-numeric-data diagnostic. -/
theorem claim_C1_chart_preconditions (df : Dataset) (f : String) :
    ((scatter_plot df f).saved.isSome ↔ 2 ≤ (numericCols df).length) ∧
    ((numericCols df).length < 2 →
      scatter_plot df f =
        ⟨none, some ("Insufficient numerical columns in " ++ f ++ "."), []⟩) ∧
    (2 ≤ (numericCols df).length →
      (scatter_plot df f).saved = some ("scatter_" ++ f ++ ".png") ∧
        (scatter_plot df f).warn = none) ∧
    ((bar_plot df f).saved.isSome ↔ 1 ≤ (categoryCols df).length) ∧
    ((categoryCols df).length = 0 →
      bar_plot df f = ⟨none, some ("No categorical data in " ++ f ++ "."), []⟩) ∧
    (1 ≤ (categoryCols df).length →
      (bar_plot df f).saved = some ("bar_" ++ f ++ ".png") ∧
        (bar_plot df f).warn = none) ∧
    ((heatmap df f).saved.isSome ↔ 2 ≤ (numericCols df).length) ∧
    ((numericCols df).length < 2 →
      heatmap df f = ⟨none, some ("Not enough numeric data in " ++ f ++ "."), []⟩) ∧
    (2 ≤ (numericCols df).length →
      (heatmap df f).saved = some ("heatmap_" ++ f ++ ".png") ∧
        (heatmap df f).warn = none) := by
  simp only [scatter_plot, bar_plot, heatmap]
  refine ⟨?_, ?_, ?_, ?_, ?_, ?_, ?_, ?_, ?_⟩
  · split_ifs with h
    · exact ⟨fun hh => by simp at hh, fun hh => absurd hh (by omega)⟩
    · exact ⟨fun _ => by omega, fun _ => rfl⟩
  · intro h
    rw [if_pos h]
  · intro h
    rw [if_neg (by omega)]
    exact ⟨rfl, rfl⟩
  · split_ifs with h
    · exact ⟨fun hh => by simp at hh, fun hh => absurd hh (by omega)⟩
    · exact ⟨fun _ => by omega, fun _ => rfl⟩
  · intro h
    rw [if_pos h]
  · intro h
    rw [if_neg (by omega)]
    exact ⟨rfl, rfl⟩
  · split_ifs with h
    · exact ⟨fun hh => by simp at hh, fun hh => absurd hh (by omega)⟩
    · exact ⟨fun _ => by omega, fun _ => rfl⟩
  · intro h
    rw [if_pos h]
  · intro h
    rw [if_neg (by omega)]
    exact ⟨rfl, rfl⟩

/-- Witness for C1 at two concrete datasets: `dfB` satisfies every chart
precondition, `dfA` fails the scatter, bar and heatmap preconditions. -/
theorem claim_C1_chart_preconditions_witness :
    ((scatter_plot dfB "data.csv").saved = some ("scatter_" ++ "data.csv" ++ ".png") ∧
      (scatter_plot dfB "data.csv").warn = none) ∧
    scatter_plot dfA "data.csv" =
      ⟨none, some ("Insufficient numerical columns in " ++ "data.csv" ++ "."), []⟩ ∧
    ((bar_plot dfB "data.csv").saved = some ("bar_" ++ "data.csv" ++ ".png") ∧
      (bar_plot dfB "data.csv").warn = none) ∧
    bar_plot dfA "data.csv" =
      ⟨none, some ("No categorical data in " ++ "data.csv" ++ "."), []⟩ ∧
    ((heatmap dfB "data.csv").saved = some ("heatmap_" ++ "data.csv" ++ ".png") ∧
      (heatmap dfB "data.csv").warn = none) ∧
    heatmap dfA "data.csv" =
      ⟨none, some ("Not enough numeric data in " ++ "data.csv" ++ "."), []⟩ :=
  ⟨(claim_C1_chart_preconditions dfB "data.csv").2.2.1 (by decide),
   (claim_C1_chart_preconditions dfA "data.csv").2.1 (by decide),
   (claim_C1_chart_preconditions dfB "data.csv").2.2.2.2.2.1 (by decide),
   (claim_C1_chart_preconditions dfA "data.csv").2.2.2.2.1 (by decide),
   (claim_C1_chart_preconditions dfB "data.csv").2.2.2.2.2.2.2.2 (by decide),
   (claim_C1_chart_preconditions dfA "data.csv").2.2.2.2.2.2.2.1 (by decide)⟩

/-- Claim C2: the shape classification is a pure total function of the
(skewness, excess-kurtosis) pair with exact thresholds at zero, and the pair
(0, 0) is classified as symmetrical and mesokurtic. -/
theorem claim_C2_shape_classifier (s : ℝ) (k : ℚ) :
    (0 < s → skew_desc s = "Right-skewed") ∧
    (s < 0 → skew_desc s = "Left-skewed") ∧
    (s = 0 → skew_desc s = "Symmetrical") ∧
    (0 < k → kurtosis_desc k = "Leptokurtic") ∧
    (k < 0 → kurtosis_desc k = "Platykurtic") ∧
    (k = 0 → kurtosis_desc k = "Mesokurtic") ∧
    skew_desc 0 = "Symmetrical" ∧ kurtosis_desc 0 = "Mesokurtic" := by
  unfold skew_desc kurtosis_desc
  refine ⟨?_, ?_, ?_, ?_, ?_, ?_, ?_, ?_⟩
  · intro h
    rw [if_pos h]
  · intro h
    rw [if_neg (by linarith), if_pos h]
  · intro h
    rw [if_neg (by linarith), if_neg (by linarith)]
  · intro h
    rw [if_pos h]
  · intro h
    rw [if_neg (by linarith), if_pos h]
  · intro h
    rw [if_neg (by linarith), if_neg (by linarith)]
  · rw [if_neg (by linarith), if_neg (by linarith)]
  · rw [if_neg (by linarith), if_neg (by linarith)]

/-- Witness for C2 at concrete values 3/2, -1/5, 1, -1 and the boundary 0. -/
theorem claim_C2_shape_classifier_witness :
    skew_desc ((3 : ℝ) / 2) = "Right-skewed" ∧
    skew_desc (-(1 : ℝ) / 5) = "Left-skewed" ∧
    kurtosis_desc 1 = "Leptokurtic" ∧
    kurtosis_desc (-1) = "Platykurtic" ∧
    skew_desc 0 = "Symmetrical" ∧ kurtosis_desc 0 = "Mesokurtic" :=
  ⟨(claim_C2_shape_classifier ((3 : ℝ) / 2) 0).1 (by norm_num),
   (claim_C2_shape_classifier (-(1 : ℝ) / 5) 0).2.1 (by norm_num),
   (claim_C2_shape_classifier 0 1).2.2.2.1 (by norm_num),
   (claim_C2_shape_classifier 0 (-1)).2.2.2.2.1 (by norm_num),
   (claim_C2_shape_classifier 0 0).2.2.2.2.2.2.1,
   (claim_C2_shape_classifier 0 0).2.2.2.2.2.2.2⟩

/-- Claim C3 names intended behaviour the code does not implement: when
`preprocessing` catches an internal fault and returns `None`, `main` goes on to
call `df.select_dtypes(...)` on that `None` outside any `try`, so an uncaught
`AttributeError` escapes instead of a graceful fatal termination. This theorem
evaluates the code on the failing scenario, for every post-load dataset. -/
theorem claim_C3_uncaught_attribute_error :
    preprocessing true dfA = none ∧
    (∀ (df0 : Dataset) (f : String),
      main true df0 f =
        Except.error "AttributeError: NoneType object has no attribute select_dtypes") ∧
    main true dfA "data.csv" =
      Except.error "AttributeError: NoneType object has no attribute select_dtypes" :=
  ⟨rfl, fun _ _ => rfl, rfl⟩

/-- Counterexample to C4 as stated: a dataset with exactly 1 numeric column and
0 categorical columns still produces three chart artifact files (the
unconditional placeholder overview charts), not zero. -/
theorem claim_C4_counterexample :
    (numericCols dfA).length = 1 ∧ categoryCols dfA = [] ∧
    chartFiles dfA "data.csv" =
      ["relational_plot.png", "statistical_plot.png", "categorical_plot.png"] ∧
    chartFiles dfA "data.csv" ≠ [] := by
  refine ⟨rfl, rfl, rfl, ?_⟩
  decide

/-- Claim C4 (amended): on a dataset with exactly 1 numeric column and 0
categorical columns the chart phase completes without exception, the three
selector-gated charts (scatter, heatmap, bar) write no file and emit exactly
their three skip diagnostics, and the only files written are the three
unconditional placeholder overview charts. -/
theorem claim_C4_degenerate_charts (df : Dataset) (f : String)
    (h1 : (numericCols df).length = 1) (h2 : categoryCols df = []) :
    chartWarns df f =
      ["Insufficient numerical columns in " ++ f ++ ".",
       "Not enough numeric data in " ++ f ++ ".",
       "No categorical data in " ++ f ++ "."] ∧
    chartFiles df f =
      ["relational_plot.png", "statistical_plot.png", "categorical_plot.png"] := by
  have hn : (numericCols df).length < 2 := by omega
  have hc : (categoryCols df).length = 0 := by simp [h2]
  unfold chartWarns chartFiles chartPhase
  unfold scatter_plot bar_plot heatmap
  rw [if_pos hn, if_pos hc, if_pos hn]
  exact ⟨rfl, rfl⟩

/-- Witness for C4 (amended) at the concrete dataset `dfA`. -/
theorem claim_C4_degenerate_charts_witness :
    chartWarns dfA "data.csv" =
      ["Insufficient numerical columns in " ++ "data.csv" ++ ".",
       "Not enough numeric data in " ++ "data.csv" ++ ".",
       "No categorical data in " ++ "data.csv" ++ "."] ∧
    chartFiles dfA "data.csv" =
      ["relational_plot.png", "statistical_plot.png", "categorical_plot.png"] :=
  claim_C4_degenerate_charts dfA "data.csv" (by decide) (by decide)

/-- Claim C7: when the Cleaner does not fault, it returns a dataset whose
columns (names and dtypes) are exactly the input columns in order, and whose
rows are exactly the input rows containing no missing cell in any column. -/
theorem claim_C7_cleaner_rows (df : Dataset) (fault : Bool) (d : Dataset)
    (h : preprocessing fault df = some d) :
    d.map Column.name = df.map Column.name ∧
    (d.map fun c => c.data.isNum) = (df.map fun c => c.data.isNum) ∧
    rows d = (rows df).filter fun r => r.all Option.isSome := by
  have hd : d = dropna df := by
    unfold preprocessing at h
    cases fault with
    | false => exact (Option.some_inj.mp (by simpa using h)).symm
    | true => simp at h
  subst hd
  refine ⟨?_, ?_, rows_dropna_filter df⟩
  · unfold dropna
    rw [List.map_map]
    exact List.map_congr_left fun c _ => rfl
  · unfold dropna
    rw [List.map_map]
    refine List.map_congr_left fun c _ => ?_
    show (c.data.selectIdx (keepIdx df)).isNum = c.data.isNum
    cases c.data <;> rfl

/-- Witness for C7 at the concrete dataset `dfMiss` (one incomplete row). -/
theorem claim_C7_cleaner_rows_witness :
    (dropna dfMiss).map Column.name = dfMiss.map Column.name ∧
    rows (dropna dfMiss) = (rows dfMiss).filter fun r => r.all Option.isSome :=
  ⟨(claim_C7_cleaner_rows dfMiss false (dropna dfMiss) rfl).1,
   (claim_C7_cleaner_rows dfMiss false (dropna dfMiss) rfl).2.2⟩

/-- Claim C9: the Cleaner is idempotent — on an already-clean dataset it
returns its input unchanged, and re-cleaning any dataset it returns is the
identity. -/
theorem claim_C9_cleaner_idempotent (df : Dataset) (fault : Bool) (d : Dataset)
    (h : preprocessing fault df = some d) :
    (Aligned df → NoMissing df → d = df) ∧ preprocessing false d = some d := by
  have hd : d = dropna df := by
    unfold preprocessing at h
    cases fault with
    | false => exact (Option.some_inj.mp (by simpa using h)).symm
    | true => simp at h
  subst hd
  refine ⟨fun ha hm => dropna_of_clean ha hm, ?_⟩
  unfold preprocessing
  rw [if_neg (by simp), dropna_idem]

/-- Witness for C9 at the concrete clean dataset `dfB`. -/
theorem claim_C9_cleaner_idempotent_witness :
    dropna dfB = dfB ∧ preprocessing false (dropna dfB) = some (dropna dfB) :=
  ⟨(claim_C9_cleaner_idempotent dfB false (dropna dfB) rfl).1 (by decide) (by decide),
   (claim_C9_cleaner_idempotent dfB false (dropna dfB) rfl).2⟩

/-- One numeric column holding 1, NaN, 3 (for the missing-value handling of
the moment calculator). -/
def dfC : Dataset := [⟨"x", ColData.num [some 1, none, some 3]⟩]

/-- Claim C5: for an existing numeric column, `statistical_analysis` returns
the 4-tuple (mean, sample standard deviation with divisor n-1, skewness,
excess kurtosis) computed over the non-missing values, as the spec-side
formulas state; missing cells are excluded from all four computations (not
treated as zero, not propagated) and never cause an abort. -/
theorem claim_C5_statistical_analysis :
    (∀ (df : Dataset) (col nm : String) (cells : List (Option ℚ)),
      df.find? (fun c => c.name = col) = some ⟨nm, ColData.num cells⟩ →
      2 ≤ (presentVals cells).length →
      cmoment 2 (presentVals cells) ≠ 0 →
      ∃ (m : ℚ) (s sk : ℝ) (k : ℚ),
        statistical_analysis df col = some (some m, some s, some sk, some k) ∧
        (m : ℝ) = specNMean (presentVals cells) ∧
        s = specSampleStd (presentVals cells) ∧
        sk = specSkewness (presentVals cells) ∧
        (k : ℝ) = specExcessKurtosis (presentVals cells)) ∧
    (∀ cs1 cs2 : List (Option ℚ),
      pdMean (cs1 ++ none :: cs2) = pdMean (cs1 ++ cs2) ∧
      pdStd (cs1 ++ none :: cs2) = pdStd (cs1 ++ cs2) ∧
      ssSkew (cs1 ++ none :: cs2) = ssSkew (cs1 ++ cs2) ∧
      ssKurtosis (cs1 ++ none :: cs2) = ssKurtosis (cs1 ++ cs2)) ∧
    (∀ (df : Dataset) (col nm : String) (cells : List (Option ℚ)),
      df.find? (fun c => c.name = col) = some ⟨nm, ColData.num cells⟩ →
      statistical_analysis df col ≠ none) := by
  refine ⟨?_, ?_, ?_⟩
  · intro df col nm cells hfind h2 hm2
    refine ⟨meanQ (presentVals cells), Real.sqrt (sampleVar (presentVals cells)),
      (cmoment 3 (presentVals cells) : ℝ) /
        Real.sqrt (cmoment 2 (presentVals cells) : ℝ) ^ 3,
      cmoment 4 (presentVals cells) / cmoment 2 (presentVals cells) ^ 2 - 3,
      ?_, ?_, ?_, ?_, ?_⟩
    · unfold statistical_analysis
      rw [hfind]
      show some (pdMean cells, pdStd cells, ssSkew cells, ssKurtosis cells) = _
      unfold pdMean pdStd ssSkew ssKurtosis
      rw [if_neg (by omega), if_neg (by omega), if_neg hm2, if_neg hm2]
    · exact ratCast_meanQ _
    · exact congrArg Real.sqrt (ratCast_sampleVar _)
    · unfold specSkewness
      rw [ratCast_cmoment, ratCast_cmoment]
    · unfold specExcessKurtosis
      push_cast [ratCast_cmoment]
      rfl
  · intro cs1 cs2
    unfold pdMean pdStd ssSkew ssKurtosis
    rw [presentVals_append_none]
    exact ⟨rfl, rfl, rfl, rfl⟩
  · intro df col nm cells hfind
    unfold statistical_analysis
    rw [hfind]
    simp

/-- Witness for C5 at the concrete column [1, NaN, 3] of `dfC`. -/
theorem claim_C5_statistical_analysis_witness :
    (∃ (m : ℚ) (s sk : ℝ) (k : ℚ),
      statistical_analysis dfC "x" = some (some m, some s, some sk, some k) ∧
      (m : ℝ) = specNMean (presentVals [some 1, none, some 3]) ∧
      s = specSampleStd (presentVals [some 1, none, some 3]) ∧
      sk = specSkewness (presentVals [some 1, none, some 3]) ∧
      (k : ℝ) = specExcessKurtosis (presentVals [some 1, none, some 3])) ∧
    pdMean ([some 1] ++ none :: [some 3]) = pdMean ([some 1] ++ [some 3]) ∧
    statistical_analysis dfC "x" ≠ none :=
  ⟨claim_C5_statistical_analysis.1 dfC "x" "x" [some 1, none, some 3] rfl
      (by decide)
      (by
        have hv : presentVals [some 1, none, some 3] = [1, 3] := rfl
        rw [hv]
        norm_num [cmoment, meanQ]),
   (claim_C5_statistical_analysis.2.1 [some 1] [some 3]).1,
   claim_C5_statistical_analysis.2.2 dfC "x" "x" [some 1, none, some 3] rfl⟩

/-- Counterexample to C6 as stated: `dfOne` is clean, has 1 row and 1 numeric
column, yet the standard deviation (0/0 with divisor n-1 = 0), skewness and
excess kurtosis components are all NaN. -/
theorem claim_C6_counterexample :
    dropna dfOne = dfOne ∧ 1 ≤ nRows (dropna dfOne) ∧
    numericCols (dropna dfOne) = ["x"] ∧
    statistical_analysis (dropna dfOne) "x" = some (some 5, none, none, none) := by
  have h0 : dropna dfOne = dfOne := by decide
  refine ⟨h0, by decide, by decide, ?_⟩
  rw [h0]
  simp [statistical_analysis, dfOne, List.find?, pdMean, pdStd, ssSkew, ssKurtosis,
    presentVals, meanQ, cmoment]

/-- Claim C6 (amended): for a numeric column of the cleaned dataset containing
at least two distinct non-missing values, `statistical_analysis` returns four
finite numbers (no NaN component); with fewer than two values, or a constant
column, the standard deviation, skewness and kurtosis degenerate to NaN. -/
theorem claim_C6_moments_finite (df : Dataset) (col nm : String)
    (cells : List (Option ℚ)) {x y : ℚ}
    (hfind : (dropna df).find? (fun c => c.name = col) = some ⟨nm, ColData.num cells⟩)
    (hx : x ∈ presentVals cells) (hy : y ∈ presentVals cells) (hxy : x ≠ y) :
    ∃ (m : ℚ) (s sk : ℝ) (k : ℚ),
      statistical_analysis (dropna df) col = some (some m, some s, some sk, some k) := by
  have h2 : 2 ≤ (presentVals cells).length := two_le_length_of_mem_ne hx hy hxy
  have hm2 : cmoment 2 (presentVals cells) ≠ 0 := cmoment_two_ne_zero hx hy hxy
  refine ⟨meanQ (presentVals cells), Real.sqrt (sampleVar (presentVals cells)),
    (cmoment 3 (presentVals cells) : ℝ) /
      Real.sqrt (cmoment 2 (presentVals cells) : ℝ) ^ 3,
    cmoment 4 (presentVals cells) / cmoment 2 (presentVals cells) ^ 2 - 3, ?_⟩
  unfold statistical_analysis
  rw [hfind]
  show some (pdMean cells, pdStd cells, ssSkew cells, ssKurtosis cells) = _
  unfold pdMean pdStd ssSkew ssKurtosis
  rw [if_neg (by omega), if_neg (by omega), if_neg hm2, if_neg hm2]

/-- Witness for C6 (amended) at the cleaned concrete dataset `dfA`. -/
theorem claim_C6_moments_finite_witness :
    ∃ (m : ℚ) (s sk : ℝ) (k : ℚ),
      statistical_analysis (dropna dfA) "x" = some (some m, some s, some sk, some k) :=
  claim_C6_moments_finite dfA "x" "x" [some 1, some 2] (by decide)
    (x := 1) (y := 2) (by decide) (by decide) (by decide)

/-- Claim C8: column choice is deterministic, always the first eligible columns
in original order: the first numeric column is the first column of the frame
whose dtype is numeric (likewise categorical), the scatter chart binds the
first two numeric columns, the bar chart the first categorical column, and the
attribute `main` analyzes is the first numeric column of the cleaned frame. -/
theorem claim_C8_first_columns (df : Dataset) (f : String) :
    ((numericCols df).head? = (df.find? fun c => c.data.isNum).map Column.name) ∧
    ((categoryCols df).head? = (df.find? fun c => c.data.isCat).map Column.name) ∧
    (2 ≤ (numericCols df).length →
      (scatter_plot df f).used = (numericCols df).take 2) ∧
    (categoryCols df ≠ [] → (bar_plot df f).used = (categoryCols df).take 1) ∧
    (∀ (pf : Bool) (sel : String) (ch : List PlotResult) (m : Option Moments)
        (r : WriteOutcome),
      main pf df f = Except.ok (MainOutcome.completed sel ch m r) →
      some sel = (numericCols (dropna df)).head?) := by
  refine ⟨?_, ?_, ?_, ?_, ?_⟩
  · unfold numericCols
    rw [List.head?_map, head?_filter_eq_find?]
  · unfold categoryCols
    rw [List.head?_map, head?_filter_eq_find?]
  · intro h
    unfold scatter_plot
    rw [if_neg (by omega)]
    exact getD_pair_eq_take_two h
  · intro h
    unfold bar_plot
    rw [if_neg (by simpa using h)]
    exact getD_single_eq_take_one h
  · intro pf sel ch m r h
    cases pf with
    | true => simp [main, preprocessing] at h
    | false =>
        simp only [main, preprocessing, if_neg, Bool.false_eq_true, ite_false] at h
        by_cases hn : (numericCols (dropna df)).length = 0
        · rw [if_pos hn] at h
          simp at h
        · rw [if_neg hn] at h
          simp only [Except.ok.injEq, MainOutcome.completed.injEq] at h
          obtain ⟨hsel, -⟩ := h
          rw [← hsel]
          exact some_getD_eq_head? fun hnil => hn (by rw [hnil]; rfl)

/-- Witness for C8 at the concrete dataset `dfB` (columns n1, n2, c1). -/
theorem claim_C8_first_columns_witness :
    (scatter_plot dfB "data.csv").used = (numericCols dfB).take 2 ∧
    (bar_plot dfB "data.csv").used = (categoryCols dfB).take 1 ∧
    some "n1" = (numericCols (dropna dfB)).head? :=
  ⟨(claim_C8_first_columns dfB "data.csv").2.2.1 (by decide),
   (claim_C8_first_columns dfB "data.csv").2.2.2.1 (by decide),
   (claim_C8_first_columns dfB "data.csv").2.2.2.2 false "n1"
     (chartPhase (dropna dfB) "data.csv")
     (statistical_analysis (dropna dfB) "n1")
     (writing (statistical_analysis (dropna dfB) "n1") "n1") rfl⟩

/-- Claim C10 (implicit): when `statistical_analysis` returns its `None`
sentinel, `writing(None, col)` does not raise — subscripting `None` throws
inside the `try`, the `except` logs the error, and `writing` returns normally
with no printed report. -/
theorem claim_C10_writing_none_safe (col : String) :
    writing none col =
      WriteOutcome.errorLogged
        ("Failed to print statistical moments for column " ++ col ++ ": TypeError") ∧
    ∀ h s k, writing none col ≠ WriteOutcome.printed h s k := by
  refine ⟨rfl, fun h s k heq => ?_⟩
  simp [writing] at heq

end StatisticsAndTrends
